import Mathlib

/-!
# Verification of the multiplayer shooter session server

Shallow embedding of `src/SERVER_CODE.js`: the vector/geometry module,
the ray–sphere hitscan, and the socket event handlers (`login`,
`player_move`, `player_shoot`, `disconnect`) acting on the in-memory
player registry.  JavaScript numbers are modelled as real numbers; the
registry (a JS `Map`, which preserves insertion order) is modelled as an
association list from socket id to player record.  Socket ids are opaque
and modelled as naturals.  Randomness (`Math.random()`) is threaded in as
explicit arguments in `[0,1)`; `Date.now()` is an explicit argument; the
database pool and bcrypt are oracle function arguments.  Outbound
`emit`/`broadcast` calls are collected in a list of messages tagged with
their audience (`io.emit` = all, `socket.broadcast.emit` = all but the
sender, `socket.emit` = the sender only).
-/

noncomputable section

namespace GameServer

/-- `const SHOT_COOLDOWN_MS = 250` -/
def SHOT_COOLDOWN_MS : ℤ := 250

/-- `const MAX_RAY_DISTANCE = 100.0` -/
def MAX_RAY_DISTANCE : ℝ := 100

/-- `const PLAYER_RADIUS = 0.5` -/
def PLAYER_RADIUS : ℝ := 0.5

/-- `const PLAYER_HEIGHT = 1.8` -/
def PLAYER_HEIGHT : ℝ := 1.8

/-- `const DAMAGE = 34` -/
def DAMAGE : ℤ := 34

/-- A JS `{x, y, z}` vector. -/
structure Vec3 where
  x : ℝ
  y : ℝ
  z : ℝ

/-- `function vec(x, y, z) { return { x, y, z }; }` -/
def vec (x y z : ℝ) : Vec3 := ⟨x, y, z⟩

/-- `function vAdd(a, b)` -/
def vAdd (a b : Vec3) : Vec3 := vec (a.x + b.x) (a.y + b.y) (a.z + b.z)

/-- `function vSub(a, b)` -/
def vSub (a b : Vec3) : Vec3 := vec (a.x - b.x) (a.y - b.y) (a.z - b.z)

/-- `function vMul(a, s)` -/
def vMul (a : Vec3) (s : ℝ) : Vec3 := vec (a.x * s) (a.y * s) (a.z * s)

/-- `function vLen(a) { return Math.sqrt(a.x*a.x + a.y*a.y + a.z*a.z); }` -/
def vLen (a : Vec3) : ℝ := Real.sqrt (a.x * a.x + a.y * a.y + a.z * a.z)

/-- `function vDot(a, b)` -/
def vDot (a b : Vec3) : ℝ := a.x * b.x + a.y * b.y + a.z * b.z

/-- JS `x || d` on a number that is not NaN: `x` when it is truthy
(non-zero), the default `d` when it is `0`. -/
def jsOr (x d : ℝ) : ℝ := if x = 0 then d else x

/-- `function vNorm(a) { const l = vLen(a) || 1; return vec(a.x/l, a.y/l, a.z/l); }` -/
def vNorm (a : Vec3) : Vec3 :=
  vec (a.x / jsOr (vLen a) 1) (a.y / jsOr (vLen a) 1) (a.z / jsOr (vLen a) 1)

/-- `function raySphere(origin, dir, center, radius)`: nearest `t >= 0`, or
`none` if no hit.  When `a = dir·dir` is `0` the direction is the zero
vector, hence `b = 0` and `disc = 0`, and in JS both roots evaluate to
`0/0 = NaN`, for which neither `t1 >= 0` nor `t2 >= 0` holds — the
function returns `null`; the `a = 0` branch below reproduces exactly that
outcome. -/
def raySphere (origin dir center : Vec3) (radius : ℝ) : Option ℝ :=
  let oc := vSub origin center
  let a := vDot dir dir
  let b := 2 * vDot oc dir
  let c := vDot oc oc - radius * radius
  let disc := b * b - 4 * a * c
  if disc < 0 then none
  else if a = 0 then none
  else
    let s := Real.sqrt disc
    let t1 := (-b - s) / (2 * a)
    let t2 := (-b + s) / (2 * a)
    if 0 ≤ t1 then some t1
    else if 0 ≤ t2 then some t2
    else none

/-- Socket ids (`socket.id`), opaque and stable per connection. -/
abbrev Sid := ℕ

/-- One entry of the in-memory `players` map:
`{ dbId, username, pos, rot, kills, deaths, hp, lastShot }`. -/
structure Player where
  dbId : ℕ
  username : String
  pos : Vec3
  rot : Vec3
  kills : ℕ
  deaths : ℕ
  hp : ℤ
  lastShot : ℤ

/-- The `players` map, `socket.id => Player`.  A JS `Map` iterates in
insertion order, so it is modelled as an association list (keys unique). -/
abbrev Registry := List (Sid × Player)

/-- `players.get(sid)`. -/
def getPlayer (sid : Sid) (ps : Registry) : Option Player :=
  (ps.find? (fun e => e.1 == sid)).map (fun e => e.2)

/-- In-place mutation of the record held under an existing key (the JS
handlers mutate the object returned by `players.get`); keys and order are
untouched. -/
def setPlayer (sid : Sid) (p : Player) (ps : Registry) : Registry :=
  ps.map (fun e => if e.1 == sid then (sid, p) else e)

/-- `players.set(sid, p)`: replace the value when the key is present,
append a new entry otherwise. -/
def mapSet (sid : Sid) (p : Player) (ps : Registry) : Registry :=
  if (ps.find? (fun e => e.1 == sid)).isSome then setPlayer sid p ps
  else ps ++ [(sid, p)]

/-- `usernameToSocket.set(u, sid)`. -/
def nameMapSet (u : String) (sid : Sid) (m : List (String × Sid)) : List (String × Sid) :=
  if (m.find? (fun e => e.1 == u)).isSome then
    m.map (fun e => if e.1 == u then (u, sid) else e)
  else m ++ [(u, sid)]

/-- Who a message goes to: `io.emit` reaches every connection,
`socket.broadcast.emit` every connection but the sender, `socket.emit`
the sender only. -/
inductive Audience where
  | all
  | othersOnly
  | senderOnly

/-- The outbound socket events of the server, with the payload fields the
handlers fill in. -/
inductive Emit where
  | loginError (message : String)
  | loginSuccess (id : Sid) (username : String) (kills deaths : ℕ)
  | spawnPlayer (id : Sid) (username : String) (pos rot : Vec3)
  | worldState
  | playerMoved (id : Sid) (pos rot : Vec3)
  | playerHit (attackerId targetId : Sid) (hp : ℤ)
  | playerDied (killerId victimId : Sid) (killerKills victimDeaths : ℕ)
  | playerDisconnected (id : Sid)

/-- An outbound message together with its audience. -/
structure Msg where
  audience : Audience
  event : Emit

/-- Payload of a `player_shoot` event; each field may be missing. -/
structure ShootData where
  origin : Option Vec3
  dir : Option Vec3
  range : Option ℝ

/-- Payload of a `player_move` event. -/
structure MoveData where
  pos : Option Vec3
  rot : Option Vec3

/-- Payload of a `login` event. -/
structure LoginData where
  username : Option String
  password : Option String

/-- A row of the `players` table as `SELECT`ed by the login handler. -/
structure DbRow where
  id : ℕ
  username : String
  passwordHash : String
  kills : ℕ
  deaths : ℕ

/-- JS `data.range || MAX_RAY_DISTANCE`: the default applies when the
field is absent or `0` (both falsy). -/
def jsOrOpt (v : Option ℝ) (d : ℝ) : ℝ :=
  match v with
  | none => d
  | some x => jsOr x d

/-- `const maxDist = Math.min(Math.max(data.range || MAX_RAY_DISTANCE, 1), 200)`. -/
def effMaxDist (range : Option ℝ) : ℝ :=
  min (max (jsOrOpt range MAX_RAY_DISTANCE) 1) 200

/-- `const center = vec(p.pos.x, p.pos.y + PLAYER_HEIGHT*0.6, p.pos.z)`. -/
def chestCenter (p : Player) : Vec3 :=
  vec p.pos.x (p.pos.y + PLAYER_HEIGHT * 0.6) p.pos.z

/-- One iteration of the hitscan loop over the `players` map: skip the
shooter, intersect the ray with the player's chest sphere, and keep the
hit when `t !== null && t >= 0 && t <= maxDist` and `t < closestT`
(`acc = none` plays the role of `closestT = Infinity, targetSid = null`). -/
def hitUpdate (shooter : Sid) (origin dir : Vec3) (maxDist : ℝ)
    (acc : Option (Sid × ℝ)) (e : Sid × Player) : Option (Sid × ℝ) :=
  if e.1 == shooter then acc
  else
    match raySphere origin dir (chestCenter e.2) PLAYER_RADIUS with
    | none => acc
    | some t =>
      if 0 ≤ t ∧ t ≤ maxDist then
        match acc with
        | none => some (e.1, t)
        | some (sid0, t0) => if t < t0 then some (e.1, t) else some (sid0, t0)
      else acc

/-- The full hitscan loop of `player_shoot` (lines 178–193): the id of the
nearest validly intersected player other than the shooter, with its ray
parameter. -/
def findTarget (shooter : Sid) (origin dir : Vec3) (maxDist : ℝ)
    (ps : Registry) : Option (Sid × ℝ) :=
  ps.foldl (hitUpdate shooter origin dir maxDist) none

/-- The `player_shoot` handler.  `now` is `Date.now()`; `rx, rz` are the
two `Math.random()` draws of the respawn position (used only when the
target dies).  Returns the registry after the event and the emitted
messages. -/
def handleShoot (sid : Sid) (data : Option ShootData) (now : ℤ) (rx rz : ℝ)
    (ps : Registry) : Registry × List Msg :=
  match getPlayer sid ps, data with
  | some player, some d =>
    match d.origin, d.dir with
    | some origin, some dir0 =>
      if now - player.lastShot < SHOT_COOLDOWN_MS then (ps, [])
      else
        let player1 := {player with lastShot := now}
        let ps1 := setPlayer sid player1 ps
        let dir := vNorm dir0
        let maxDist := effMaxDist d.range
        match findTarget sid origin dir maxDist ps1 with
        | none => (ps1, [])
        | some (targetSid, _) =>
          match getPlayer targetSid ps1 with
          | none => (ps1, [])
          | some target =>
            let hp1 := target.hp - DAMAGE
            let hp2 := if hp1 < 0 then 0 else hp1
            let target1 := {target with hp := hp2}
            let ps2 := setPlayer targetSid target1 ps1
            let hitMsg : Msg := ⟨.all, .playerHit sid targetSid hp2⟩
            if hp2 ≤ 0 then
              let player2 := {player1 with kills := player1.kills + 1}
              let ps3 := setPlayer sid player2 ps2
              let target2 := {target1 with
                                hp := 100,
                                deaths := target1.deaths + 1,
                                pos := vec (rx * 8 - 4) 1 (rz * 8 - 4)}
              let ps4 := setPlayer targetSid target2 ps3
              (ps4, [hitMsg,
                     ⟨.all, .playerDied sid targetSid player2.kills target2.deaths⟩,
                     ⟨.all, .playerMoved targetSid target2.pos target2.rot⟩])
            else (ps2, [hitMsg])
    | _, _ => (ps, [])
  | _, _ => (ps, [])

/-- The `player_move` handler: guard `!player || !data || !data.pos ||
!data.rot`, then overwrite `pos`/`rot` (each component `* 1.0`) and
broadcast `player_moved` to every other connection. -/
def handleMove (sid : Sid) (data : Option MoveData) (ps : Registry) :
    Registry × List Msg :=
  match getPlayer sid ps, data with
  | some player, some d =>
    match d.pos, d.rot with
    | some p, some r =>
      let player1 := {player with
                        pos := vec (p.x * 1) (p.y * 1) (p.z * 1),
                        rot := vec (r.x * 1) (r.y * 1) (r.z * 1)}
      (setPlayer sid player1 ps,
       [⟨.othersOnly, .playerMoved sid player1.pos player1.rot⟩])
    | _, _ => (ps, [])
  | _, _ => (ps, [])

/-- The `login` handler.  `db` stands for the `SELECT ... WHERE username`
query (`none` = no row), `bcryptOk` for `bcrypt.compare`; `rx, ry, rz`
are the `Math.random()` draws of the spawn position and yaw.  A falsy
(`missing or empty`) username or password is rejected with
`login_error` before any lookup. -/
def handleLogin (sid : Sid) (data : Option LoginData) (db : String → Option DbRow)
    (bcryptOk : String → String → Bool) (rx ry rz : ℝ)
    (ps : Registry) (u2s : List (String × Sid)) :
    (Registry × List (String × Sid)) × List Msg :=
  match data with
  | none => ((ps, u2s), [⟨.senderOnly, .loginError "Missing credentials."⟩])
  | some d =>
    match d.username, d.password with
    | some u, some pw =>
      if u = "" ∨ pw = "" then
        ((ps, u2s), [⟨.senderOnly, .loginError "Missing credentials."⟩])
      else
        match db u with
        | none => ((ps, u2s), [⟨.senderOnly, .loginError "Invalid username or password."⟩])
        | some row =>
          if bcryptOk pw row.passwordHash then
            let u2s1 := nameMapSet u sid u2s
            let player : Player :=
              { dbId := row.id
                username := row.username
                pos := vec (rx * 8 - 4) 1 (rz * 8 - 4)
                rot := vec 0 (ry * 360) 0
                kills := row.kills
                deaths := row.deaths
                hp := 100
                lastShot := 0 }
            ((mapSet sid player ps, u2s1),
             [⟨.senderOnly, .loginSuccess sid player.username player.kills player.deaths⟩,
              ⟨.othersOnly, .spawnPlayer sid player.username player.pos player.rot⟩,
              ⟨.senderOnly, .worldState⟩])
          else ((ps, u2s), [⟨.senderOnly, .loginError "Invalid username or password."⟩])
    | _, _ => ((ps, u2s), [⟨.senderOnly, .loginError "Missing credentials."⟩])

/-- The `disconnect` handler: delete the player (if any), drop their
`usernameToSocket` entry when it still points at this socket, and tell
the others. -/
def handleDisconnect (sid : Sid) (ps : Registry) (u2s : List (String × Sid)) :
    (Registry × List (String × Sid)) × List Msg :=
  match getPlayer sid ps with
  | none => ((ps, u2s), [])
  | some player =>
    let ps1 := ps.filter (fun e => !(e.1 == sid))
    let u2s1 :=
      if (u2s.find? (fun e => e.1 == player.username)).map (fun e => e.2) = some sid
      then u2s.filter (fun e => !(e.1 == player.username)) else u2s
    ((ps1, u2s1), [⟨.othersOnly, .playerDisconnected sid⟩])

/-- A hit the validation loop accepts for entry `e`: the entry is not the
shooter and the ray meets its chest sphere at parameter `t` with
`0 ≤ t ≤ maxDist`. -/
def ValidHit (shooter : Sid) (origin dir : Vec3) (maxDist : ℝ)
    (e : Sid × Player) (t : ℝ) : Prop :=
  e.1 ≠ shooter ∧
  raySphere origin dir (chestCenter e.2) PLAYER_RADIUS = some t ∧
  0 ≤ t ∧ t ≤ maxDist

/-- Every player's health is an integer in `[0, 100]`. -/
def HealthInv (ps : Registry) : Prop :=
  ∀ e ∈ ps, 0 ≤ e.2.hp ∧ e.2.hp ≤ 100

/-! ## Registry lemmas -/

theorem getPlayer_nil (sid : Sid) : getPlayer sid [] = none := rfl

theorem getPlayer_cons_self (sid : Sid) (p : Player) (l : Registry) :
    getPlayer sid ((sid, p) :: l) = some p := by
  simp [getPlayer, List.find?_cons_of_pos]

theorem getPlayer_cons_ne {e1 sid : Sid} (h : e1 ≠ sid) (p : Player) (l : Registry) :
    getPlayer sid ((e1, p) :: l) = getPlayer sid l := by
  unfold getPlayer
  rw [List.find?_cons_of_neg]
  simpa using h

theorem setPlayer_cons (sid : Sid) (p : Player) (e : Sid × Player) (l : Registry) :
    setPlayer sid p (e :: l) =
      (if e.1 = sid then (sid, p) else e) :: setPlayer sid p l := by
  by_cases h : e.1 = sid <;> simp [setPlayer, h]

theorem getPlayer_mem {sid : Sid} {ps : Registry} {p : Player}
    (h : getPlayer sid ps = some p) : (sid, p) ∈ ps := by
  induction ps with
  | nil => simp [getPlayer] at h
  | cons e l ih =>
    obtain ⟨e1, e2⟩ := e
    by_cases hke : e1 = sid
    · subst hke
      rw [getPlayer_cons_self] at h
      cases h
      exact List.mem_cons_self _ _
    · rw [getPlayer_cons_ne hke] at h
      exact List.mem_cons_of_mem _ (ih h)

theorem mem_getPlayer {sid : Sid} {ps : Registry} {p : Player}
    (hnd : (ps.map Prod.fst).Nodup) (h : (sid, p) ∈ ps) :
    getPlayer sid ps = some p := by
  induction ps with
  | nil => simp at h
  | cons e l ih =>
    obtain ⟨e1, e2⟩ := e
    simp only [List.map_cons, List.nodup_cons] at hnd
    rcases List.mem_cons.1 h with heq | hl
    · cases heq
      exact getPlayer_cons_self _ _ _
    · by_cases hke : e1 = sid
      · subst hke
        exact absurd (List.mem_map.2 ⟨(e1, p), hl, rfl⟩) hnd.1
      · rw [getPlayer_cons_ne hke]
        exact ih hnd.2 hl

theorem setPlayer_keys (sid : Sid) (p : Player) (ps : Registry) :
    (setPlayer sid p ps).map Prod.fst = ps.map Prod.fst := by
  induction ps with
  | nil => rfl
  | cons e l ih =>
    obtain ⟨e1, e2⟩ := e
    rw [setPlayer_cons]
    by_cases h : e1 = sid <;> simp [h] at ih ⊢ <;> exact ih

theorem getPlayer_setPlayer_self {sid : Sid} {ps : Registry} {q : Player}
    (h : getPlayer sid ps = some q) (p : Player) :
    getPlayer sid (setPlayer sid p ps) = some p := by
  induction ps with
  | nil => simp [getPlayer] at h
  | cons e l ih =>
    obtain ⟨e1, e2⟩ := e
    rw [setPlayer_cons]
    by_cases hke : e1 = sid
    · simp only [hke, if_true]
      exact getPlayer_cons_self _ _ _
    · simp only [hke, if_false]
      rw [getPlayer_cons_ne hke]
      rw [getPlayer_cons_ne hke] at h
      exact ih h

theorem getPlayer_setPlayer_other {sid sid' : Sid} (hne : sid' ≠ sid)
    (p : Player) (ps : Registry) :
    getPlayer sid' (setPlayer sid p ps) = getPlayer sid' ps := by
  induction ps with
  | nil => rfl
  | cons e l ih =>
    obtain ⟨e1, e2⟩ := e
    rw [setPlayer_cons]
    by_cases hke : e1 = sid
    · subst hke
      rw [if_pos rfl]
      rw [getPlayer_cons_ne (fun hh => hne hh.symm),
          getPlayer_cons_ne (fun hh => hne hh.symm)]
      exact ih
    · simp only [hke, if_false]
      by_cases hke' : e1 = sid'
      · subst hke'
        rw [getPlayer_cons_self, getPlayer_cons_self]
      · rw [getPlayer_cons_ne hke', getPlayer_cons_ne hke']
        exact ih

theorem mem_setPlayer_other {sid sid' : Sid} (hne : sid' ≠ sid)
    {q : Player} (p : Player) (ps : Registry) :
    (sid', q) ∈ setPlayer sid p ps ↔ (sid', q) ∈ ps := by
  constructor
  · intro h
    rcases List.mem_map.1 h with ⟨e, hmem, heq⟩
    by_cases hke : e.1 = sid
    · rw [if_pos (by simpa using hke)] at heq
      cases heq
      exact absurd rfl hne
    · rw [if_neg (by simpa using hke)] at heq
      exact heq ▸ hmem
  · intro h
    refine List.mem_map.2 ⟨(sid', q), h, ?_⟩
    rw [if_neg (by simpa using hne)]

theorem mem_setPlayer {sid : Sid} {p : Player} {ps : Registry} {e : Sid × Player}
    (h : e ∈ setPlayer sid p ps) : e ∈ ps ∨ e = (sid, p) := by
  rcases List.mem_map.1 h with ⟨e0, hmem, heq⟩
  by_cases hke : e0.1 = sid
  · rw [if_pos (by simpa using hke)] at heq
    exact Or.inr heq.symm
  · rw [if_neg (by simpa using hke)] at heq
    exact Or.inl (heq ▸ hmem)

/-! ## Hitscan loop lemmas -/

theorem hitUpdate_eq_none {sh : Sid} {o d : Vec3} {m : ℝ}
    {acc : Option (Sid × ℝ)} {e : Sid × Player} :
    hitUpdate sh o d m acc e = none ↔
      acc = none ∧ ∀ t, ¬ ValidHit sh o d m e t := by
  unfold hitUpdate
  by_cases hsh : e.1 = sh
  · rw [if_pos (by simpa using hsh)]
    simp [ValidHit, hsh]
  · rw [if_neg (by simpa using hsh)]
    rcases hR : raySphere o d (chestCenter e.2) PLAYER_RADIUS with _ | t
    · simp [ValidHit, hR]
    · dsimp only
      by_cases hc : 0 ≤ t ∧ t ≤ m
      · rw [if_pos hc]
        rcases acc with _ | ⟨s0, t0⟩
        · constructor
          · intro h; cases h
          · rintro ⟨-, hall⟩
            exact absurd ⟨hsh, hR, hc⟩ (hall t)
        · constructor
          · intro h
            by_cases hlt : t < t0 <;> simp [hlt] at h
          · rintro ⟨h, -⟩; cases h
      · rw [if_neg hc]
        constructor
        · intro h
          refine ⟨h, fun u hu => ?_⟩
          rcases hu with ⟨-, hu, hu0, hum⟩
          rw [hR] at hu
          cases hu
          exact hc ⟨hu0, hum⟩
        · exact fun h => h.1

theorem hitUpdate_some_of_some {sh : Sid} {o d : Vec3} {m : ℝ}
    {acc : Option (Sid × ℝ)} {e : Sid × Player} {v : Sid × ℝ}
    (h : acc = some v) : ∃ w, hitUpdate sh o d m acc e = some w := by
  by_cases hn : hitUpdate sh o d m acc e = none
  · rw [hitUpdate_eq_none] at hn
    rw [h] at hn
    cases hn.1
  · exact Option.ne_none_iff_exists'.1 hn

theorem hitUpdate_some_inv {sh : Sid} {o d : Vec3} {m : ℝ}
    {acc : Option (Sid × ℝ)} {e : Sid × Player} {s : Sid} {t : ℝ}
    (h : hitUpdate sh o d m acc e = some (s, t)) :
    acc = some (s, t) ∨ (s = e.1 ∧ ValidHit sh o d m e t) := by
  unfold hitUpdate at h
  by_cases hsh : e.1 = sh
  · rw [if_pos (by simpa using hsh)] at h
    exact Or.inl h
  · rw [if_neg (by simpa using hsh)] at h
    rcases hR : raySphere o d (chestCenter e.2) PLAYER_RADIUS with _ | u
    · rw [hR] at h
      exact Or.inl h
    · rw [hR] at h
      dsimp only at h
      by_cases hc : 0 ≤ u ∧ u ≤ m
      · rw [if_pos hc] at h
        rcases acc with _ | ⟨s0, t0⟩
        · dsimp only at h
          cases h
          exact Or.inr ⟨rfl, hsh, hR, hc⟩
        · dsimp only at h
          by_cases hlt : u < t0
          · rw [if_pos hlt] at h
            cases h
            exact Or.inr ⟨rfl, hsh, hR, hc⟩
          · rw [if_neg hlt] at h
            exact Or.inl h
      · rw [if_neg hc] at h
        exact Or.inl h

theorem hitUpdate_le_valid {sh : Sid} {o d : Vec3} {m : ℝ}
    {acc : Option (Sid × ℝ)} {e : Sid × Player} {s : Sid} {t u : ℝ}
    (hu : ValidHit sh o d m e u)
    (h : hitUpdate sh o d m acc e = some (s, t)) : t ≤ u := by
  obtain ⟨hsh, hR, hu0, hum⟩ := hu
  unfold hitUpdate at h
  rw [if_neg (by simpa using hsh), hR] at h
  dsimp only at h
  rw [if_pos ⟨hu0, hum⟩] at h
  rcases acc with _ | ⟨s0, t0⟩
  · cases h; exact le_refl _
  · dsimp only at h
    by_cases hlt : u < t0
    · rw [if_pos hlt] at h
      cases h; exact le_refl _
    · rw [if_neg hlt] at h
      cases h; exact le_of_not_lt hlt

theorem hitUpdate_le_acc {sh : Sid} {o d : Vec3} {m : ℝ}
    {e : Sid × Player} {s s0 : Sid} {t t0 : ℝ}
    (h : hitUpdate sh o d m (some (s0, t0)) e = some (s, t)) : t ≤ t0 := by
  unfold hitUpdate at h
  by_cases hsh : e.1 = sh
  · rw [if_pos (by simpa using hsh)] at h
    cases h; exact le_refl _
  · rw [if_neg (by simpa using hsh)] at h
    rcases hR : raySphere o d (chestCenter e.2) PLAYER_RADIUS with _ | u
    · rw [hR] at h
      cases h; exact le_refl _
    · rw [hR] at h
      dsimp only at h
      by_cases hc : 0 ≤ u ∧ u ≤ m
      · rw [if_pos hc] at h
        by_cases hlt : u < t0
        · rw [if_pos hlt] at h
          cases h; exact le_of_lt hlt
        · rw [if_neg hlt] at h
          cases h; exact le_refl _
      · rw [if_neg hc] at h
        cases h; exact le_refl _

theorem foldl_hitUpdate_none {sh : Sid} {o d : Vec3} {m : ℝ} :
    ∀ (l : Registry) (acc : Option (Sid × ℝ)),
      l.foldl (hitUpdate sh o d m) acc = none ↔
        acc = none ∧ ∀ e ∈ l, ∀ t, ¬ ValidHit sh o d m e t := by
  intro l
  induction l with
  | nil => intro acc; simp
  | cons e l ih =>
    intro acc
    rw [List.foldl_cons, ih]
    rw [hitUpdate_eq_none]
    constructor
    · rintro ⟨⟨hacc, he⟩, hl⟩
      refine ⟨hacc, ?_⟩
      intro e' he' t
      rcases List.mem_cons.1 he' with rfl | hmem
      · exact he t
      · exact hl e' hmem t
    · rintro ⟨hacc, hall⟩
      exact ⟨⟨hacc, fun t => hall e (List.mem_cons_self _ _) t⟩,
             fun e' he' t => hall e' (List.mem_cons_of_mem _ he') t⟩

theorem foldl_hitUpdate_min {sh : Sid} {o d : Vec3} {m : ℝ} :
    ∀ (l : Registry) (acc : Option (Sid × ℝ)) (s : Sid) (t : ℝ),
      l.foldl (hitUpdate sh o d m) acc = some (s, t) →
        ((∃ e ∈ l, e.1 = s ∧ ValidHit sh o d m e t) ∨ acc = some (s, t)) ∧
        (∀ e ∈ l, ∀ u, ValidHit sh o d m e u → t ≤ u) ∧
        (∀ s0 t0, acc = some (s0, t0) → t ≤ t0) := by
  intro l
  induction l with
  | nil =>
    intro acc s t h
    rw [List.foldl_nil] at h
    exact ⟨Or.inr h, by simp, fun s0 t0 h0 => by rw [h0] at h; cases h; exact le_refl t⟩
  | cons e l ih =>
    intro acc s t h
    rw [List.foldl_cons] at h
    obtain ⟨horig, hmin, hacc⟩ := ih (hitUpdate sh o d m acc e) s t h
    have hstep : ∀ u, ValidHit sh o d m e u → t ≤ u := by
      intro u hu
      rcases hacc' : hitUpdate sh o d m acc e with _ | ⟨s', t'⟩
      · rw [hitUpdate_eq_none] at hacc'
        exact absurd hu (hacc'.2 u)
      · exact le_trans (hacc s' t' hacc') (hitUpdate_le_valid hu hacc')
    refine ⟨?_, ?_, ?_⟩
    · rcases horig with hl | hcur
      · rcases hl with ⟨e', he', hs, hv⟩
        exact Or.inl ⟨e', List.mem_cons_of_mem _ he', hs, hv⟩
      · rcases hitUpdate_some_inv hcur with hback | ⟨hs, hv⟩
        · exact Or.inr hback
        · exact Or.inl ⟨e, List.mem_cons_self _ _, hs.symm, hv⟩
    · intro e' he' u hu
      rcases List.mem_cons.1 he' with rfl | hmem
      · exact hstep u hu
      · exact hmin e' hmem u hu
    · intro s0 t0 h0
      obtain ⟨⟨s1, t1⟩, hw⟩ := @hitUpdate_some_of_some sh o d m acc e (s0, t0) h0
      refine le_trans (hacc s1 t1 hw) ?_
      rw [h0] at hw
      exact hitUpdate_le_acc hw

/-! ## Unfolding the `player_shoot` handler along its three outcomes -/

theorem handleShoot_miss {sid : Sid} {ps : Registry} {player : Player}
    {origin dir0 : Vec3} {rng : Option ℝ} {now : ℤ} (rx rz : ℝ)
    (hreg : getPlayer sid ps = some player)
    (hcd : ¬ (now - player.lastShot < SHOT_COOLDOWN_MS))
    (hfind : findTarget sid origin (vNorm dir0) (effMaxDist rng)
        (setPlayer sid {player with lastShot := now} ps) = none) :
    handleShoot sid (some ⟨some origin, some dir0, rng⟩) now rx rz ps =
      (setPlayer sid {player with lastShot := now} ps, []) := by
  unfold handleShoot
  rw [hreg]
  dsimp only
  rw [if_neg hcd, hfind]

theorem handleShoot_hit_alive {sid tsid : Sid} {ps : Registry} {player target : Player}
    {origin dir0 : Vec3} {rng : Option ℝ} {now : ℤ} {t : ℝ} (rx rz : ℝ)
    (hreg : getPlayer sid ps = some player)
    (hcd : ¬ (now - player.lastShot < SHOT_COOLDOWN_MS))
    (hfind : findTarget sid origin (vNorm dir0) (effMaxDist rng)
        (setPlayer sid {player with lastShot := now} ps) = some (tsid, t))
    (htgt : getPlayer tsid (setPlayer sid {player with lastShot := now} ps) = some target)
    (halive : ¬ (target.hp - DAMAGE ≤ 0)) :
    handleShoot sid (some ⟨some origin, some dir0, rng⟩) now rx rz ps =
      (setPlayer tsid {target with hp := target.hp - DAMAGE}
         (setPlayer sid {player with lastShot := now} ps),
       [⟨.all, .playerHit sid tsid (target.hp - DAMAGE)⟩]) := by
  unfold handleShoot
  rw [hreg]
  dsimp only
  rw [if_neg hcd, hfind]
  dsimp only
  rw [htgt]
  dsimp only
  have h2 : (if target.hp - DAMAGE < 0 then 0 else target.hp - DAMAGE) =
      target.hp - DAMAGE := by
    rw [if_neg (by omega)]
  rw [h2, if_neg halive]

theorem handleShoot_kill {sid tsid : Sid} {ps : Registry} {player target : Player}
    {origin dir0 : Vec3} {rng : Option ℝ} {now : ℤ} {t : ℝ} (rx rz : ℝ)
    (hreg : getPlayer sid ps = some player)
    (hcd : ¬ (now - player.lastShot < SHOT_COOLDOWN_MS))
    (hfind : findTarget sid origin (vNorm dir0) (effMaxDist rng)
        (setPlayer sid {player with lastShot := now} ps) = some (tsid, t))
    (htgt : getPlayer tsid (setPlayer sid {player with lastShot := now} ps) = some target)
    (hdead : target.hp - DAMAGE ≤ 0) :
    handleShoot sid (some ⟨some origin, some dir0, rng⟩) now rx rz ps =
      (setPlayer tsid
         {target with hp := 100, deaths := target.deaths + 1,
                      pos := vec (rx * 8 - 4) 1 (rz * 8 - 4)}
         (setPlayer sid {player with lastShot := now, kills := player.kills + 1}
            (setPlayer tsid {target with hp := 0}
               (setPlayer sid {player with lastShot := now} ps))),
       [⟨.all, .playerHit sid tsid 0⟩,
        ⟨.all, .playerDied sid tsid (player.kills + 1) (target.deaths + 1)⟩,
        ⟨.all, .playerMoved tsid (vec (rx * 8 - 4) 1 (rz * 8 - 4)) target.rot⟩]) := by
  unfold handleShoot
  rw [hreg]
  dsimp only
  rw [if_neg hcd, hfind]
  dsimp only
  rw [htgt]
  dsimp only
  have h2 : (if target.hp - DAMAGE < 0 then 0 else target.hp - DAMAGE) = 0 := by
    by_cases h : target.hp - DAMAGE < 0
    · rw [if_pos h]
    · rw [if_neg h]; omega
  rw [h2, if_pos (le_refl (0 : ℤ))]

/-! ## Concrete sample data for witnesses

Two logged-in players: the shooter at the origin and a target standing
`5` units down the positive x axis, placed so that its chest sphere is
centred exactly on the x axis (`-27/25 + 1.8 * 0.6 = 0`); one shot
(damage 34) kills it from full-health 34. -/

def alicePlayer : Player :=
  { dbId := 10, username := "alice", pos := vec 0 0 0, rot := vec 0 0 0,
    kills := 5, deaths := 1, hp := 100, lastShot := 0 }

def bobPlayer : Player :=
  { dbId := 11, username := "bob", pos := vec 5 (-27/25) 0, rot := vec 0 7 0,
    kills := 2, deaths := 3, hp := 34, lastShot := 0 }

def sampleRegistry : Registry := [(1, alicePlayer), (2, bobPlayer)]

theorem vNorm_unitX : vNorm (vec 1 0 0) = vec 1 0 0 := by
  unfold vNorm vLen jsOr
  norm_num [vec, Real.sqrt_one]

theorem effMaxDist_none_eq : effMaxDist none = 100 := by
  unfold effMaxDist jsOrOpt MAX_RAY_DISTANCE
  norm_num

theorem raySphere_sample :
    raySphere (vec 0 0 0) (vec 1 0 0) (vec 5 0 0) PLAYER_RADIUS = some (9/2) := by
  unfold raySphere PLAYER_RADIUS
  norm_num [vSub, vDot, vec]

theorem chestCenter_bob : chestCenter bobPlayer = vec 5 0 0 := by
  unfold chestCenter bobPlayer PLAYER_HEIGHT
  norm_num [vec]

theorem findTarget_sample :
    findTarget 1 (vec 0 0 0) (vNorm (vec 1 0 0)) (effMaxDist none)
      (setPlayer 1 {alicePlayer with lastShot := 1000} sampleRegistry) =
      some (2, 9/2) := by
  rw [vNorm_unitX, effMaxDist_none_eq]
  show List.foldl _ none _ = _
  rw [show setPlayer 1 {alicePlayer with lastShot := 1000} sampleRegistry =
        [(1, {alicePlayer with lastShot := 1000}), (2, bobPlayer)] from rfl]
  rw [List.foldl_cons, List.foldl_cons, List.foldl_nil]
  rw [show hitUpdate 1 (vec 0 0 0) (vec 1 0 0) 100 none
        (1, {alicePlayer with lastShot := 1000}) = none from rfl]
  unfold hitUpdate
  rw [if_neg (by norm_num), chestCenter_bob, raySphere_sample]
  dsimp only
  rw [if_pos (by norm_num)]

/-! ## Claim theorems -/

/-- C2: a shoot event arriving less than `SHOT_COOLDOWN_MS` (250 ms) after
the same shooter's previous accepted shot (the stored `lastShot` stamp,
which only accepted shots update) causes no state change at all — in
particular `lastShot` itself is left unchanged — and emits no message:
the shot is dropped, not queued.  This holds for every payload `data`,
because the cooldown check runs before any other effect. -/
theorem cooldown_shot_is_dropped (sid : Sid) (ps : Registry) (player : Player)
    (data : Option ShootData) (now : ℤ) (rx rz : ℝ)
    (hreg : getPlayer sid ps = some player)
    (hcd : now - player.lastShot < SHOT_COOLDOWN_MS) :
    handleShoot sid data now rx rz ps = (ps, []) := by
  unfold handleShoot
  rw [hreg]
  rcases data with _ | ⟨o, dr, rng⟩
  · rfl
  · rcases o with _ | o
    · rfl
    · rcases dr with _ | dr
      · rfl
      · dsimp only
        rw [if_pos hcd]

theorem cooldown_shot_is_dropped_witness :
    handleShoot 1 (some ⟨some (vec 0 0 0), some (vec 1 0 0), none⟩) 200 0 0
      sampleRegistry = (sampleRegistry, []) :=
  cooldown_shot_is_dropped 1 sampleRegistry alicePlayer
    (some ⟨some (vec 0 0 0), some (vec 1 0 0), none⟩) 200 0 0 rfl
    (by norm_num [alicePlayer, SHOT_COOLDOWN_MS])

/-- C5 counterexample: a supplied range of `0` is falsy in JS, so
`data.range || MAX_RAY_DISTANCE` replaces it with the default `100`
before the clamp; the effective max range is therefore `100`, not the
claimed clamp-to-`[1,200]` of the supplied value, which would be `1`. -/
theorem zero_range_defaults_not_clamped :
    effMaxDist (some 0) = 100 ∧ min (max (0 : ℝ) 1) 200 = 1 ∧ (100 : ℝ) ≠ 1 := by
  refine ⟨?_, by norm_num, by norm_num⟩
  unfold effMaxDist jsOrOpt jsOr MAX_RAY_DISTANCE
  norm_num

/-- C5 (amended): the effective max range of a shot is
`min (max r 1) 200` — the supplied range clamped to `[1, 200]` — for
every supplied range `r` other than `0`; an absent or zero range first
falls back to the default `MAX_RAY_DISTANCE = 100` (JS `||`), which the
clamp then leaves at `100`.  In every case the effective range lies in
`[1, 200]`, and it is computed before any intersection test
(`handleShoot` passes `effMaxDist d.range` into `findTarget`). -/
theorem max_range_clamping (r : ℝ) (hr : r ≠ 0) :
    effMaxDist (some r) = min (max r 1) 200 ∧
    effMaxDist none = min (max MAX_RAY_DISTANCE 1) 200 ∧
    effMaxDist (some 0) = min (max MAX_RAY_DISTANCE 1) 200 ∧
    (∀ ro : Option ℝ, 1 ≤ effMaxDist ro ∧ effMaxDist ro ≤ 200) := by
  refine ⟨?_, rfl, ?_, ?_⟩
  · unfold effMaxDist jsOrOpt jsOr
    dsimp only
    rw [if_neg hr]
  · unfold effMaxDist jsOrOpt jsOr
    dsimp only
    rw [if_pos rfl]
  · intro ro
    refine ⟨le_min (le_max_right _ _) (by norm_num), min_le_right _ _⟩

theorem max_range_clamping_witness :
    (500 : ℝ) ≠ 0 ∧ effMaxDist (some 500) = min (max (500 : ℝ) 1) 200 :=
  ⟨by norm_num, (max_range_clamping 500 (by norm_num)).1⟩

/-- C7 counterexample: a `login` event with missing credentials is *not*
silently dropped — the handler emits a `login_error` message
(`"Missing credentials."`) to the sender, contradicting the claim that
no error message is emitted for malformed input. -/
theorem missing_credentials_emit_error :
    (handleLogin 1 none (fun _ => none) (fun _ _ => false) 0 0 0 [] []).2 =
      [⟨Audience.senderOnly, Emit.loginError "Missing credentials."⟩] ∧
    ([⟨Audience.senderOnly, Emit.loginError "Missing credentials."⟩] : List Msg) ≠
      [] := ⟨rfl, by simp⟩

/-- C7 (amended): malformed `player_move` and `player_shoot` events
(missing payload, or missing `pos`/`rot`/`origin`/`dir` fields) are
silently dropped: no state change and no message.  A malformed `login`
event (missing payload, missing or empty username or password) likewise
changes no state, but it is not silent: the handler sends a
`login_error` message back to the sender. -/
theorem malformed_input_handling :
    (∀ sid : Sid, ∀ now : ℤ, ∀ rx rz : ℝ, ∀ ps : Registry,
        handleShoot sid none now rx rz ps = (ps, [])) ∧
    (∀ sid : Sid, ∀ dirv : Option Vec3, ∀ rng : Option ℝ, ∀ now : ℤ,
        ∀ rx rz : ℝ, ∀ ps : Registry,
        handleShoot sid (some ⟨none, dirv, rng⟩) now rx rz ps = (ps, [])) ∧
    (∀ sid : Sid, ∀ o : Option Vec3, ∀ rng : Option ℝ, ∀ now : ℤ,
        ∀ rx rz : ℝ, ∀ ps : Registry,
        handleShoot sid (some ⟨o, none, rng⟩) now rx rz ps = (ps, [])) ∧
    (∀ sid : Sid, ∀ ps : Registry, handleMove sid none ps = (ps, [])) ∧
    (∀ sid : Sid, ∀ r : Option Vec3, ∀ ps : Registry,
        handleMove sid (some ⟨none, r⟩) ps = (ps, [])) ∧
    (∀ sid : Sid, ∀ p : Option Vec3, ∀ ps : Registry,
        handleMove sid (some ⟨p, none⟩) ps = (ps, [])) ∧
    (∀ sid : Sid, ∀ db : String → Option DbRow, ∀ bc : String → String → Bool,
        ∀ rx ry rz : ℝ, ∀ ps : Registry, ∀ u2s : List (String × Sid),
        handleLogin sid none db bc rx ry rz ps u2s =
          ((ps, u2s), [⟨.senderOnly, .loginError "Missing credentials."⟩])) ∧
    (∀ sid : Sid, ∀ pw : Option String, ∀ db : String → Option DbRow,
        ∀ bc : String → String → Bool, ∀ rx ry rz : ℝ, ∀ ps : Registry,
        ∀ u2s : List (String × Sid),
        handleLogin sid (some ⟨none, pw⟩) db bc rx ry rz ps u2s =
          ((ps, u2s), [⟨.senderOnly, .loginError "Missing credentials."⟩])) ∧
    (∀ sid : Sid, ∀ u : Option String, ∀ db : String → Option DbRow,
        ∀ bc : String → String → Bool, ∀ rx ry rz : ℝ, ∀ ps : Registry,
        ∀ u2s : List (String × Sid),
        handleLogin sid (some ⟨u, none⟩) db bc rx ry rz ps u2s =
          ((ps, u2s), [⟨.senderOnly, .loginError "Missing credentials."⟩])) ∧
    (∀ sid : Sid, ∀ pw : String, ∀ db : String → Option DbRow,
        ∀ bc : String → String → Bool, ∀ rx ry rz : ℝ, ∀ ps : Registry,
        ∀ u2s : List (String × Sid),
        handleLogin sid (some ⟨some "", some pw⟩) db bc rx ry rz ps u2s =
          ((ps, u2s), [⟨.senderOnly, .loginError "Missing credentials."⟩])) ∧
    (∀ sid : Sid, ∀ u : String, ∀ db : String → Option DbRow,
        ∀ bc : String → String → Bool, ∀ rx ry rz : ℝ, ∀ ps : Registry,
        ∀ u2s : List (String × Sid),
        handleLogin sid (some ⟨some u, some ""⟩) db bc rx ry rz ps u2s =
          ((ps, u2s), [⟨.senderOnly, .loginError "Missing credentials."⟩])) := by
  refine ⟨?_, ?_, ?_, ?_, ?_, ?_, ?_, ?_, ?_, ?_, ?_⟩
  · intro sid now rx rz ps
    unfold handleShoot
    rcases hg : getPlayer sid ps with _ | player <;> rfl
  · intro sid dirv rng now rx rz ps
    unfold handleShoot
    rcases hg : getPlayer sid ps with _ | player
    · rfl
    · rcases dirv with _ | dirv <;> rfl
  · intro sid o rng now rx rz ps
    unfold handleShoot
    rcases hg : getPlayer sid ps with _ | player
    · rfl
    · rcases o with _ | o <;> rfl
  · intro sid ps
    unfold handleMove
    rcases hg : getPlayer sid ps with _ | player <;> rfl
  · intro sid r ps
    unfold handleMove
    rcases hg : getPlayer sid ps with _ | player
    · rfl
    · rcases r with _ | r <;> rfl
  · intro sid p ps
    unfold handleMove
    rcases hg : getPlayer sid ps with _ | player
    · rfl
    · rcases p with _ | p <;> rfl
  · intro sid db bc rx ry rz ps u2s
    rfl
  · intro sid pw db bc rx ry rz ps u2s
    rcases pw with _ | pw <;> rfl
  · intro sid u db bc rx ry rz ps u2s
    rcases u with _ | u <;> rfl
  · intro sid pw db bc rx ry rz ps u2s
    unfold handleLogin
    dsimp only
    rw [if_pos (Or.inl rfl)]
  · intro sid u db bc rx ry rz ps u2s
    unfold handleLogin
    dsimp only
    rw [if_pos (Or.inr rfl)]

/-- C8: a `player_move` event from an unregistered connection, or one
whose payload is missing or lacks the position or the rotation, leaves
the registry unchanged and emits nothing; otherwise the player's
position and rotation are overwritten unconditionally with the supplied
vectors and a `player_moved` carrying them is broadcast to every other
connection (audience `othersOnly`, i.e. `socket.broadcast.emit`), not to
the sender. -/
theorem move_handler_spec (sid : Sid) (ps : Registry) :
    (handleMove sid none ps = (ps, [])) ∧
    (∀ d : MoveData, getPlayer sid ps = none → handleMove sid (some d) ps = (ps, [])) ∧
    (∀ r : Option Vec3, handleMove sid (some ⟨none, r⟩) ps = (ps, [])) ∧
    (∀ p : Option Vec3, handleMove sid (some ⟨p, none⟩) ps = (ps, [])) ∧
    (∀ player : Player, ∀ p r : Vec3, getPlayer sid ps = some player →
        handleMove sid (some ⟨some p, some r⟩) ps =
          (setPlayer sid {player with pos := p, rot := r} ps,
           [⟨.othersOnly, .playerMoved sid p r⟩])) := by
  refine ⟨?_, ?_, ?_, ?_, ?_⟩
  · unfold handleMove
    rcases hg : getPlayer sid ps with _ | player <;> rfl
  · intro d hg
    unfold handleMove
    rw [hg]
  · intro r
    unfold handleMove
    rcases hg : getPlayer sid ps with _ | player
    · rfl
    · rcases r with _ | r <;> rfl
  · intro p
    unfold handleMove
    rcases hg : getPlayer sid ps with _ | player
    · rfl
    · rcases p with _ | p <;> rfl
  · intro player p r hg
    unfold handleMove
    rw [hg]
    dsimp only
    rw [show vec (p.x * 1) (p.y * 1) (p.z * 1) = p from by simp [vec],
        show vec (r.x * 1) (r.y * 1) (r.z * 1) = r from by simp [vec]]

theorem move_handler_spec_witness :
    handleMove 1 (some ⟨some (vec 1 2 3), some (vec 0 9 0)⟩) sampleRegistry =
      (setPlayer 1 {alicePlayer with pos := vec 1 2 3, rot := vec 0 9 0}
         sampleRegistry,
       [⟨.othersOnly, .playerMoved 1 (vec 1 2 3) (vec 0 9 0)⟩]) :=
  (move_handler_spec 1 sampleRegistry).2.2.2.2 alicePlayer (vec 1 2 3) (vec 0 9 0) rfl

/-- C9 counterexample: the shoot path *does* divide by zero for a
zero-direction shot, contradicting "performs no division-by-zero
anywhere".  `vNorm`'s divisor `vLen || 1` is `1` for the zero vector,
but the zero direction then reaches `raySphere`, whose root computations
`(-b ± √disc) / (2*a)` are evaluated with denominator
`2*a = 2·(dir·dir) = 0` (in JS both are `0/0 = NaN`); only because the
resulting NaNs fail both `>= 0` tests does the function still return
`null`, so the zero division is harmless but not absent. -/
theorem zero_direction_division_in_raySphere :
    jsOr (vLen (vec 0 0 0)) 1 = 1 ∧
    2 * vDot (vec 0 0 0) (vec 0 0 0) = 0 ∧
    raySphere (vec 0 0 0) (vec 0 0 0) (vec 0 0 0) 1 = none := by
  refine ⟨?_, by norm_num [vDot, vec], ?_⟩
  · unfold jsOr vLen
    norm_num [vec]
  · unfold raySphere
    norm_num [vDot, vSub, vec]

/-- C9 (amended): `vNorm` divides by `vLen(a) || 1`, which is never `0`,
so the zero vector is "normalized" by dividing by `1` and stays the zero
vector — `vNorm` itself never divides by zero; `raySphere` with a zero
direction returns `none` for every origin, center and radius, although
it reaches its root computations with the zero denominator
`2*a = 2·(dir·dir) = 0` (in JS the roots are `0/0 = NaN`, failing both
`>= 0` tests — the division by zero happens but is harmless); hence a
shoot event whose direction is `(0,0,0)` scans every registry without
resolving any target and emits nothing. -/
theorem zero_direction_safety :
    vNorm (vec 0 0 0) = vec 0 0 0 ∧
    (∀ a : Vec3, jsOr (vLen a) 1 ≠ 0) ∧
    2 * vDot (vec 0 0 0) (vec 0 0 0) = 0 ∧
    (∀ origin center : Vec3, ∀ radius : ℝ,
        raySphere origin (vec 0 0 0) center radius = none) ∧
    (∀ sh : Sid, ∀ origin : Vec3, ∀ m : ℝ, ∀ ps : Registry,
        findTarget sh origin (vNorm (vec 0 0 0)) m ps = none) ∧
    (∀ sid : Sid, ∀ o : Option Vec3, ∀ rng : Option ℝ, ∀ now : ℤ, ∀ rx rz : ℝ,
        ∀ ps : Registry,
        (handleShoot sid (some ⟨o, some (vec 0 0 0), rng⟩) now rx rz ps).2 = []) := by
  have hnorm : vNorm (vec 0 0 0) = vec 0 0 0 := by
    unfold vNorm vLen jsOr
    norm_num [vec]
  have hray : ∀ origin center : Vec3, ∀ radius : ℝ,
      raySphere origin (vec 0 0 0) center radius = none := by
    intro origin center radius
    unfold raySphere
    norm_num [vDot, vec]
  have hfind : ∀ sh : Sid, ∀ origin : Vec3, ∀ m : ℝ, ∀ ps : Registry,
      findTarget sh origin (vNorm (vec 0 0 0)) m ps = none := by
    intro sh origin m ps
    rw [hnorm]
    exact (foldl_hitUpdate_none ps none).2
      ⟨rfl, fun e he t hv => by
        obtain ⟨-, hr, -, -⟩ := hv
        rw [hray] at hr
        cases hr⟩
  refine ⟨hnorm, ?_, by norm_num [vDot, vec], hray, hfind, ?_⟩
  · intro a
    unfold jsOr
    by_cases h : vLen a = 0
    · rw [if_pos h]; norm_num
    · rw [if_neg h]; exact h
  · intro sid o rng now rx rz ps
    rcases hg : getPlayer sid ps with _ | player
    · unfold handleShoot
      rw [hg]
    · rcases o with _ | origin
      · unfold handleShoot
        rw [hg]
      · by_cases hcd : now - player.lastShot < SHOT_COOLDOWN_MS
        · rw [cooldown_shot_is_dropped sid ps player _ now rx rz hg hcd]
        · rw [handleShoot_miss rx rz hg hcd (hfind _ _ _ _)]

/-- C6: `raySphere` returns `none` when the discriminant
`b*b - 4*a*c` of `a·t² + b·t + c = 0` (with `a = dir·dir`,
`b = 2·(origin−center)·dir`, `c = |origin−center|² − radius²`) is
negative; otherwise (for a genuine quadratic, `a ≠ 0`) it returns the
smaller root `(-b − √disc)/(2a)` if that is non-negative, else the
larger root `(-b + √disc)/(2a)` if that alone is non-negative, else
`none` — both candidates are actual roots, the first is never above the
second, and every returned value is `≥ 0` (nearest forward
intersection, never behind the origin). -/
theorem raySphere_root_selection (origin dir center : Vec3) (radius a b c disc : ℝ)
    (hA : a = vDot dir dir)
    (hB : b = 2 * vDot (vSub origin center) dir)
    (hC : c = vDot (vSub origin center) (vSub origin center) - radius * radius)
    (hD : disc = b * b - 4 * a * c)
    (ha : a ≠ 0) :
    (disc < 0 → raySphere origin dir center radius = none) ∧
    (0 ≤ disc →
      (-b - Real.sqrt disc) / (2 * a) ≤ (-b + Real.sqrt disc) / (2 * a) ∧
      a * ((-b - Real.sqrt disc) / (2 * a) * ((-b - Real.sqrt disc) / (2 * a))) +
        b * ((-b - Real.sqrt disc) / (2 * a)) + c = 0 ∧
      a * ((-b + Real.sqrt disc) / (2 * a) * ((-b + Real.sqrt disc) / (2 * a))) +
        b * ((-b + Real.sqrt disc) / (2 * a)) + c = 0 ∧
      raySphere origin dir center radius =
        (if 0 ≤ (-b - Real.sqrt disc) / (2 * a) then
          some ((-b - Real.sqrt disc) / (2 * a))
         else if 0 ≤ (-b + Real.sqrt disc) / (2 * a) then
          some ((-b + Real.sqrt disc) / (2 * a))
         else none)) ∧
    (∀ u : ℝ, raySphere origin dir center radius = some u → 0 ≤ u) := by
  have hapos : 0 < a := by
    rcases lt_or_eq_of_le (by
      rw [hA]; unfold vDot
      nlinarith [mul_self_nonneg dir.x, mul_self_nonneg dir.y, mul_self_nonneg dir.z] :
        (0 : ℝ) ≤ a) with h | h
    · exact h
    · exact absurd h.symm ha
  refine ⟨?_, ?_, ?_⟩
  · intro hneg
    unfold raySphere
    dsimp only
    rw [← hA, ← hB, ← hC, ← hD, if_pos hneg]
  · intro h0
    have hs := Real.sqrt_nonneg disc
    have hsq : Real.sqrt disc * Real.sqrt disc = disc := Real.mul_self_sqrt h0
    refine ⟨?_, ?_, ?_, ?_⟩
    · exact (div_le_div_iff_of_pos_right (by linarith)).2 (by linarith)
    · field_simp
      nlinarith [hsq, hD]
    · field_simp
      nlinarith [hsq, hD]
    · unfold raySphere
      dsimp only
      rw [← hA, ← hB, ← hC, ← hD, if_neg (not_lt.2 h0), if_neg ha]
  · intro u hu
    unfold raySphere at hu
    dsimp only at hu
    split_ifs at hu with h1 h2 h3 h4
    · cases hu
      exact h3
    · cases hu
      exact h4

theorem raySphere_root_selection_witness :
    raySphere (vec 0 0 0) (vec 1 0 0) (vec 5 0 0) 3 = some 2 := by
  have h := (raySphere_root_selection (vec 0 0 0) (vec 1 0 0) (vec 5 0 0) 3
      1 (-10) 16 36
      (by norm_num [vDot, vec]) (by norm_num [vDot, vSub, vec])
      (by norm_num [vDot, vSub, vec]) (by norm_num) (by norm_num)).2.1
      (by norm_num)
  rw [h.2.2.2]
  rw [show Real.sqrt 36 = 6 from by
    rw [show (36 : ℝ) = 6 ^ 2 from by norm_num]
    exact Real.sqrt_sq (by norm_num)]
  norm_num

/-- C1: once the guards pass (registered shooter, cooldown elapsed,
origin and direction present), the hitscan resolves, if anything, a
registered player other than the shooter whose chest sphere the
normalized ray meets at the *smallest* parameter `t` with
`0 ≤ t ≤ effMaxDist rng` — no strictly closer validly-hit player is ever
skipped; and when no player's sphere is validly intersected within
range, the handler only stamps `lastShot` and applies no hit and emits
no message. -/
theorem shoot_resolves_nearest_valid_target (sid : Sid) (ps : Registry)
    (player : Player) (origin dir0 : Vec3) (rng : Option ℝ) (now : ℤ) (rx rz : ℝ)
    (hreg : getPlayer sid ps = some player)
    (hcd : ¬ (now - player.lastShot < SHOT_COOLDOWN_MS)) :
    (∀ tsid : Sid, ∀ t : ℝ,
        findTarget sid origin (vNorm dir0) (effMaxDist rng)
            (setPlayer sid {player with lastShot := now} ps) = some (tsid, t) →
        tsid ≠ sid ∧
        (∃ q : Player, (tsid, q) ∈ ps ∧
            raySphere origin (vNorm dir0) (chestCenter q) PLAYER_RADIUS = some t ∧
            0 ≤ t ∧ t ≤ effMaxDist rng) ∧
        (∀ sid' : Sid, ∀ q : Player, ∀ u : ℝ, (sid', q) ∈ ps → sid' ≠ sid →
            raySphere origin (vNorm dir0) (chestCenter q) PLAYER_RADIUS = some u →
            0 ≤ u → u ≤ effMaxDist rng → t ≤ u)) ∧
    ((∀ sid' : Sid, ∀ q : Player, ∀ u : ℝ, (sid', q) ∈ ps → sid' ≠ sid →
        raySphere origin (vNorm dir0) (chestCenter q) PLAYER_RADIUS = some u →
        ¬ (0 ≤ u ∧ u ≤ effMaxDist rng)) →
      handleShoot sid (some ⟨some origin, some dir0, rng⟩) now rx rz ps =
        (setPlayer sid {player with lastShot := now} ps, [])) := by
  constructor
  · intro tsid t hf
    obtain ⟨horig, hmin, -⟩ :=
      foldl_hitUpdate_min (setPlayer sid {player with lastShot := now} ps) none tsid t hf
    rcases horig with ⟨e, he, he1, hv⟩ | habs
    · obtain ⟨e1, e2⟩ := e
      cases he1
      obtain ⟨hnsh, hr, h0, hm⟩ := hv
      refine ⟨hnsh, ⟨e2, ?_, hr, h0, hm⟩, ?_⟩
      · exact (mem_setPlayer_other hnsh _ _).1 he
      · intro sid' q u hmem hne hru h0u hmu
        exact hmin (sid', q) ((mem_setPlayer_other hne _ _).2 hmem) u ⟨hne, hru, h0u, hmu⟩
    · cases habs
  · intro hnone
    apply handleShoot_miss rx rz hreg hcd
    refine (foldl_hitUpdate_none _ _).2 ⟨rfl, ?_⟩
    intro e he t hv
    obtain ⟨e1, e2⟩ := e
    obtain ⟨hnsh, hr, h0, hm⟩ := hv
    exact hnone e1 e2 t ((mem_setPlayer_other hnsh _ _).1 he) hnsh hr ⟨h0, hm⟩

theorem shoot_resolves_nearest_valid_target_witness :
    (2 : Sid) ≠ 1 ∧
    (∃ q : Player, ((2 : Sid), q) ∈ sampleRegistry ∧
        raySphere (vec 0 0 0) (vNorm (vec 1 0 0)) (chestCenter q) PLAYER_RADIUS =
          some (9/2) ∧ (0 : ℝ) ≤ 9/2 ∧ (9/2 : ℝ) ≤ effMaxDist none) ∧
    (∀ sid' : Sid, ∀ q : Player, ∀ u : ℝ, (sid', q) ∈ sampleRegistry → sid' ≠ 1 →
        raySphere (vec 0 0 0) (vNorm (vec 1 0 0)) (chestCenter q) PLAYER_RADIUS =
          some u →
        0 ≤ u → u ≤ effMaxDist none → (9/2 : ℝ) ≤ u) :=
  (shoot_resolves_nearest_valid_target 1 sampleRegistry alicePlayer
      (vec 0 0 0) (vec 1 0 0) none 1000 0 0 rfl
      (by norm_num [alicePlayer, SHOT_COOLDOWN_MS])).1 2 (9/2) findTarget_sample

/-- C4: when a validated hit leaves the victim with clamped health `0`
(equivalently `hp − DAMAGE ≤ 0`), and only then, the shooter's kill
count and the victim's death count each grow by exactly one, the
victim's health is reset to `100`, and the victim is moved to the fresh
random spawn `(rx·8−4, 1, rz·8−4)`, whose X and Z lie in `[-4, 4]` and
whose Y is `1`; the emitted messages are exactly `player_hit` (health
`0`), `player_died` with the incremented counters, and a `player_moved`
for the respawn.  When the victim survives, no counter changes, health
just drops by `DAMAGE`, and only the `player_hit` is emitted. -/
theorem kill_credits_and_respawn (sid tsid : Sid) (ps : Registry)
    (player target : Player) (origin dir0 : Vec3) (rng : Option ℝ)
    (now : ℤ) (rx rz t : ℝ)
    (hreg : getPlayer sid ps = some player)
    (hcd : ¬ (now - player.lastShot < SHOT_COOLDOWN_MS))
    (hfind : findTarget sid origin (vNorm dir0) (effMaxDist rng)
        (setPlayer sid {player with lastShot := now} ps) = some (tsid, t))
    (htgt : getPlayer tsid ps = some target)
    (hrx0 : 0 ≤ rx) (hrx1 : rx < 1) (hrz0 : 0 ≤ rz) (hrz1 : rz < 1) :
    (target.hp - DAMAGE ≤ 0 →
      getPlayer sid
          (handleShoot sid (some ⟨some origin, some dir0, rng⟩) now rx rz ps).1 =
        some {player with lastShot := now, kills := player.kills + 1} ∧
      getPlayer tsid
          (handleShoot sid (some ⟨some origin, some dir0, rng⟩) now rx rz ps).1 =
        some {target with
                hp := 100, deaths := target.deaths + 1,
                pos := vec (rx * 8 - 4) 1 (rz * 8 - 4)} ∧
      (-4 ≤ rx * 8 - 4 ∧ rx * 8 - 4 ≤ 4 ∧ -4 ≤ rz * 8 - 4 ∧ rz * 8 - 4 ≤ 4) ∧
      (handleShoot sid (some ⟨some origin, some dir0, rng⟩) now rx rz ps).2 =
        [⟨.all, .playerHit sid tsid 0⟩,
         ⟨.all, .playerDied sid tsid (player.kills + 1) (target.deaths + 1)⟩,
         ⟨.all, .playerMoved tsid (vec (rx * 8 - 4) 1 (rz * 8 - 4)) target.rot⟩]) ∧
    (¬ (target.hp - DAMAGE ≤ 0) →
      getPlayer sid
          (handleShoot sid (some ⟨some origin, some dir0, rng⟩) now rx rz ps).1 =
        some {player with lastShot := now} ∧
      getPlayer tsid
          (handleShoot sid (some ⟨some origin, some dir0, rng⟩) now rx rz ps).1 =
        some {target with hp := target.hp - DAMAGE} ∧
      (handleShoot sid (some ⟨some origin, some dir0, rng⟩) now rx rz ps).2 =
        [⟨.all, .playerHit sid tsid (target.hp - DAMAGE)⟩]) := by
  have hne : tsid ≠ sid := by
    obtain ⟨horig, -, -⟩ :=
      foldl_hitUpdate_min (setPlayer sid {player with lastShot := now} ps) none tsid t hfind
    rcases horig with ⟨e, -, he1, hv⟩ | habs
    · exact he1 ▸ hv.1
    · cases habs
  have hne' : sid ≠ tsid := fun h => hne h.symm
  have htgt1 : getPlayer tsid (setPlayer sid {player with lastShot := now} ps) =
      some target := by
    rw [getPlayer_setPlayer_other hne _ _]
    exact htgt
  have hps1 : getPlayer sid (setPlayer sid {player with lastShot := now} ps) =
      some {player with lastShot := now} :=
    getPlayer_setPlayer_self hreg _
  constructor
  · intro hdead
    rw [handleShoot_kill rx rz hreg hcd hfind htgt1 hdead]
    refine ⟨?_, ?_, by constructor <;> [linarith; constructor <;>
      [linarith; constructor <;> [linarith; linarith]]], rfl⟩
    · rw [getPlayer_setPlayer_other hne' _ _]
      exact getPlayer_setPlayer_self
        (by rw [getPlayer_setPlayer_other hne' _ _]; exact hps1) _
    · exact getPlayer_setPlayer_self
        (by rw [getPlayer_setPlayer_other hne _ _]
            exact getPlayer_setPlayer_self htgt1 _) _
  · intro halive
    rw [handleShoot_hit_alive rx rz hreg hcd hfind htgt1 halive]
    refine ⟨?_, ?_, rfl⟩
    · rw [getPlayer_setPlayer_other hne' _ _]
      exact hps1
    · exact getPlayer_setPlayer_self htgt1 _

theorem kill_credits_and_respawn_witness :
    getPlayer 1 (handleShoot 1 (some ⟨some (vec 0 0 0), some (vec 1 0 0), none⟩)
        1000 0 (1/2) sampleRegistry).1 =
      some {alicePlayer with lastShot := 1000, kills := alicePlayer.kills + 1} ∧
    getPlayer 2 (handleShoot 1 (some ⟨some (vec 0 0 0), some (vec 1 0 0), none⟩)
        1000 0 (1/2) sampleRegistry).1 =
      some {bobPlayer with
              hp := 100, deaths := bobPlayer.deaths + 1,
              pos := vec (0 * 8 - 4) 1 ((1/2) * 8 - 4)} := by
  have h := (kill_credits_and_respawn 1 2 sampleRegistry alicePlayer bobPlayer
      (vec 0 0 0) (vec 1 0 0) none 1000 0 (1/2) (9/2) rfl
      (by norm_num [alicePlayer, SHOT_COOLDOWN_MS]) findTarget_sample rfl
      (by norm_num) (by norm_num) (by norm_num) (by norm_num)).1
      (by norm_num [bobPlayer, DAMAGE])
  exact ⟨h.1, h.2.1⟩

/-- C10: a shoot event that resolves a target touches only the shooter's
`lastShot`/`kills` and the target's `hp`/`deaths`/`pos`: the list of
registered connection ids is unchanged (same keys in the same order),
every player other than the shooter and the target keeps its entire
record, the shooter keeps username, position, rotation, health, deaths
and db id, and the target keeps username, rotation, kills, `lastShot`
and db id. -/
theorem shoot_frame_condition (sid tsid : Sid) (ps : Registry)
    (player target : Player) (origin dir0 : Vec3) (rng : Option ℝ)
    (now : ℤ) (rx rz t : ℝ)
    (hreg : getPlayer sid ps = some player)
    (hcd : ¬ (now - player.lastShot < SHOT_COOLDOWN_MS))
    (hfind : findTarget sid origin (vNorm dir0) (effMaxDist rng)
        (setPlayer sid {player with lastShot := now} ps) = some (tsid, t))
    (htgt : getPlayer tsid ps = some target) :
    ((handleShoot sid (some ⟨some origin, some dir0, rng⟩) now rx rz ps).1.map
        Prod.fst = ps.map Prod.fst) ∧
    (∀ s : Sid, ∀ p : Player, (s, p) ∈ ps → s ≠ sid → s ≠ tsid →
        (s, p) ∈ (handleShoot sid (some ⟨some origin, some dir0, rng⟩) now rx rz ps).1) ∧
    (∃ p' : Player,
        getPlayer sid
            (handleShoot sid (some ⟨some origin, some dir0, rng⟩) now rx rz ps).1 =
          some p' ∧
        p'.username = player.username ∧ p'.pos = player.pos ∧
        p'.rot = player.rot ∧ p'.hp = player.hp ∧
        p'.deaths = player.deaths ∧ p'.dbId = player.dbId) ∧
    (∃ q' : Player,
        getPlayer tsid
            (handleShoot sid (some ⟨some origin, some dir0, rng⟩) now rx rz ps).1 =
          some q' ∧
        q'.username = target.username ∧ q'.rot = target.rot ∧
        q'.kills = target.kills ∧ q'.lastShot = target.lastShot ∧
        q'.dbId = target.dbId) := by
  have hne : tsid ≠ sid := by
    obtain ⟨horig, -, -⟩ :=
      foldl_hitUpdate_min (setPlayer sid {player with lastShot := now} ps) none tsid t hfind
    rcases horig with ⟨e, -, he1, hv⟩ | habs
    · exact he1 ▸ hv.1
    · cases habs
  have hne' : sid ≠ tsid := fun h => hne h.symm
  have htgt1 : getPlayer tsid (setPlayer sid {player with lastShot := now} ps) =
      some target := by
    rw [getPlayer_setPlayer_other hne _ _]
    exact htgt
  have hps1 : getPlayer sid (setPlayer sid {player with lastShot := now} ps) =
      some {player with lastShot := now} :=
    getPlayer_setPlayer_self hreg _
  rcases le_or_lt (target.hp - DAMAGE) 0 with hdead | halive
  · rw [handleShoot_kill rx rz hreg hcd hfind htgt1 hdead]
    refine ⟨?_, ?_, ?_, ?_⟩
    · rw [setPlayer_keys, setPlayer_keys, setPlayer_keys, setPlayer_keys]
    · intro s p hm hns hnt
      exact (mem_setPlayer_other hnt _ _).2 ((mem_setPlayer_other hns _ _).2
        ((mem_setPlayer_other hnt _ _).2 ((mem_setPlayer_other hns _ _).2 hm)))
    · refine ⟨{player with lastShot := now, kills := player.kills + 1}, ?_,
        rfl, rfl, rfl, rfl, rfl, rfl⟩
      rw [getPlayer_setPlayer_other hne' _ _]
      exact getPlayer_setPlayer_self
        (by rw [getPlayer_setPlayer_other hne' _ _]; exact hps1) _
    · refine ⟨{target with
                 hp := 100, deaths := target.deaths + 1,
                 pos := vec (rx * 8 - 4) 1 (rz * 8 - 4)},
        ?_, rfl, rfl, rfl, rfl, rfl⟩
      exact getPlayer_setPlayer_self
        (by rw [getPlayer_setPlayer_other hne _ _]
            exact getPlayer_setPlayer_self htgt1 _) _
  · rw [handleShoot_hit_alive rx rz hreg hcd hfind htgt1 (not_le.2 halive)]
    refine ⟨?_, ?_, ?_, ?_⟩
    · rw [setPlayer_keys, setPlayer_keys]
    · intro s p hm hns hnt
      exact (mem_setPlayer_other hnt _ _).2 ((mem_setPlayer_other hns _ _).2 hm)
    · refine ⟨{player with lastShot := now}, ?_, rfl, rfl, rfl, rfl, rfl, rfl⟩
      rw [getPlayer_setPlayer_other hne' _ _]
      exact hps1
    · refine ⟨{target with hp := target.hp - DAMAGE}, ?_, rfl, rfl, rfl, rfl, rfl⟩
      exact getPlayer_setPlayer_self htgt1 _

theorem shoot_frame_condition_witness :
    ((handleShoot 1 (some ⟨some (vec 0 0 0), some (vec 1 0 0), none⟩)
        1000 0 (1/3) sampleRegistry).1.map Prod.fst =
      sampleRegistry.map Prod.fst) ∧
    (∃ q' : Player,
        getPlayer 2 (handleShoot 1 (some ⟨some (vec 0 0 0), some (vec 1 0 0), none⟩)
            1000 0 (1/3) sampleRegistry).1 = some q' ∧
        q'.username = bobPlayer.username ∧ q'.rot = bobPlayer.rot ∧
        q'.kills = bobPlayer.kills ∧ q'.lastShot = bobPlayer.lastShot ∧
        q'.dbId = bobPlayer.dbId) := by
  have h := shoot_frame_condition 1 2 sampleRegistry alicePlayer bobPlayer
      (vec 0 0 0) (vec 1 0 0) none 1000 0 (1/3) (9/2) rfl
      (by norm_num [alicePlayer, SHOT_COOLDOWN_MS]) findTarget_sample rfl
  exact ⟨h.1, h.2.2.2⟩

/-! ## Health invariant helpers -/

theorem mem_setPlayer_self {sid : Sid} {p q : Player} {ps : Registry}
    (h : (sid, q) ∈ setPlayer sid p ps) : q = p := by
  rcases List.mem_map.1 h with ⟨e0, -, heq⟩
  by_cases hke : e0.1 = sid
  · rw [if_pos (by simpa using hke)] at heq
    cases heq
    rfl
  · rw [if_neg (by simpa using hke)] at heq
    exact absurd (congrArg Prod.fst heq) (by simpa using hke)

theorem mem_unique {ps : Registry} {s : Sid} {p q : Player}
    (hnd : (ps.map Prod.fst).Nodup) (hp : (s, p) ∈ ps) (hq : (s, q) ∈ ps) :
    p = q := by
  have h1 := mem_getPlayer hnd hp
  have h2 := mem_getPlayer hnd hq
  rw [h1] at h2
  cases h2
  rfl

theorem healthInv_setPlayer {ps : Registry} {p : Player} (sid : Sid)
    (hinv : HealthInv ps) (h0 : 0 ≤ p.hp) (h1 : p.hp ≤ 100) :
    HealthInv (setPlayer sid p ps) := by
  intro e he
  rcases mem_setPlayer he with hm | rfl
  · exact hinv e hm
  · exact ⟨h0, h1⟩

theorem healthInv_mapSet {ps : Registry} {p : Player} (sid : Sid)
    (hinv : HealthInv ps) (h0 : 0 ≤ p.hp) (h1 : p.hp ≤ 100) :
    HealthInv (mapSet sid p ps) := by
  unfold mapSet
  by_cases hf : (ps.find? (fun e => e.1 == sid)).isSome
  · rw [if_pos hf]
    exact healthInv_setPlayer sid hinv h0 h1
  · rw [if_neg hf]
    intro e he
    rcases List.mem_append.1 he with hm | hm
    · exact hinv e hm
    · rcases List.mem_singleton.1 hm with rfl
      exact ⟨h0, h1⟩

/-- The (unreachable in practice) branch in which the hitscan resolved a
target id that is no longer in the registry: the handler stops after
stamping `lastShot`. -/
theorem handleShoot_ghost {sid tsid : Sid} {ps : Registry} {player : Player}
    {origin dir0 : Vec3} {rng : Option ℝ} {now : ℤ} {t : ℝ} (rx rz : ℝ)
    (hreg : getPlayer sid ps = some player)
    (hcd : ¬ (now - player.lastShot < SHOT_COOLDOWN_MS))
    (hfind : findTarget sid origin (vNorm dir0) (effMaxDist rng)
        (setPlayer sid {player with lastShot := now} ps) = some (tsid, t))
    (htgt : getPlayer tsid (setPlayer sid {player with lastShot := now} ps) = none) :
    handleShoot sid (some ⟨some origin, some dir0, rng⟩) now rx rz ps =
      (setPlayer sid {player with lastShot := now} ps, []) := by
  unfold handleShoot
  rw [hreg]
  dsimp only
  rw [if_neg hcd, hfind]
  dsimp only
  rw [htgt]

/-- C3 counterexample: a second successful `login` on an already
registered connection re-creates that player's record with `hp = 100`
(`players.set` overwrites the existing entry), so a player at health
`66` is set back to `100` by an event that is not the respawn path — no
hit, no death, no respawn occurred. -/
theorem relogin_resets_health_outside_respawn :
    ([(1, {alicePlayer with hp := 66})] : Registry).map (fun e => (e.1, e.2.hp)) =
      [((1 : Sid), (66 : ℤ))] ∧
    ((handleLogin 1 (some ⟨some "alice", some "pw"⟩)
        (fun u => if u = "alice" then
          some ⟨10, "alice", "hash", 5, 1⟩ else none)
        (fun _ _ => true) 0 0 0
        [(1, {alicePlayer with hp := 66})] []).1.1).map (fun e => (e.1, e.2.hp)) =
      [((1 : Sid), (100 : ℤ))] :=
  ⟨rfl, rfl⟩

theorem tsid_ne_sid_of_findTarget {sid tsid : Sid} {o d : Vec3} {m t : ℝ}
    {l : Registry} (hf : findTarget sid o d m l = some (tsid, t)) : tsid ≠ sid := by
  obtain ⟨horig, -, -⟩ := foldl_hitUpdate_min l none tsid t hf
  rcases horig with ⟨e, -, he1, hv⟩ | habs
  · exact he1 ▸ hv.1
  · cases habs

theorem healthInv_handleShoot (sid : Sid) (data : Option ShootData) (now : ℤ)
    (rx rz : ℝ) (ps : Registry) (hinv : HealthInv ps) :
    HealthInv (handleShoot sid data now rx rz ps).1 := by
  rcases hg : getPlayer sid ps with _ | player
  · unfold handleShoot
    rw [hg]
    exact hinv
  · rcases data with _ | ⟨o, dr, rng⟩
    · unfold handleShoot
      rw [hg]
      exact hinv
    · rcases o with _ | origin
      · unfold handleShoot
        rw [hg]
        exact hinv
      · rcases dr with _ | dir0
        · unfold handleShoot
          rw [hg]
          exact hinv
        · obtain ⟨hp0, hp1⟩ := hinv _ (getPlayer_mem hg)
          by_cases hcd : now - player.lastShot < SHOT_COOLDOWN_MS
          · have heq : handleShoot sid (some ⟨some origin, some dir0, rng⟩)
                now rx rz ps = (ps, []) := by
              unfold handleShoot
              rw [hg]
              dsimp only
              rw [if_pos hcd]
            rw [heq]
            exact hinv
          · have hinv1 : HealthInv (setPlayer sid {player with lastShot := now} ps) :=
              healthInv_setPlayer sid hinv hp0 hp1
            rcases hf : findTarget sid origin (vNorm dir0) (effMaxDist rng)
                (setPlayer sid {player with lastShot := now} ps) with _ | ⟨tsid, t⟩
            · rw [handleShoot_miss rx rz hg hcd hf]
              exact hinv1
            · rcases hg2 : getPlayer tsid
                  (setPlayer sid {player with lastShot := now} ps) with _ | target
              · rw [handleShoot_ghost rx rz hg hcd hf hg2]
                exact hinv1
              · have hne : tsid ≠ sid := tsid_ne_sid_of_findTarget hf
                have htmem : (tsid, target) ∈ ps :=
                  (mem_setPlayer_other hne _ _).1 (getPlayer_mem hg2)
                obtain ⟨ht0, ht1⟩ := hinv _ htmem
                have hD : (0 : ℤ) ≤ DAMAGE := by norm_num [DAMAGE]
                by_cases hdead : target.hp - DAMAGE ≤ 0
                · rw [handleShoot_kill rx rz hg hcd hf hg2 hdead]
                  refine healthInv_setPlayer tsid ?_ (by norm_num) (by norm_num)
                  refine healthInv_setPlayer sid ?_ hp0 hp1
                  exact healthInv_setPlayer tsid hinv1 (le_refl 0) (by norm_num)
                · rw [handleShoot_hit_alive rx rz hg hcd hf hg2 hdead]
                  refine healthInv_setPlayer tsid hinv1 ?_ ?_
                  · exact le_of_lt (not_le.1 hdead)
                  · exact le_trans (by linarith : target.hp - DAMAGE ≤ target.hp) ht1

theorem handleShoot_hp_changes (sid : Sid) (data : Option ShootData) (now : ℤ)
    (rx rz : ℝ) (ps : Registry) (s : Sid) (p q : Player)
    (hnd : (ps.map Prod.fst).Nodup)
    (hmem : (s, p) ∈ ps)
    (hq : (s, q) ∈ (handleShoot sid data now rx rz ps).1) :
    q.hp = p.hp ∨
      (s ≠ sid ∧
       q.hp = (if p.hp - DAMAGE ≤ 0 then (100 : ℤ) else p.hp - DAMAGE) ∧
       ∃ player : Player, ∃ origin dir0 : Vec3, ∃ rng : Option ℝ, ∃ t : ℝ,
         getPlayer sid ps = some player ∧
         data = some ⟨some origin, some dir0, rng⟩ ∧
         findTarget sid origin (vNorm dir0) (effMaxDist rng)
           (setPlayer sid {player with lastShot := now} ps) = some (s, t)) := by
  rcases hg : getPlayer sid ps with _ | player
  · have heq : handleShoot sid data now rx rz ps = (ps, []) := by
      unfold handleShoot
      rw [hg]
    rw [heq] at hq
    left
    rw [mem_unique hnd hmem hq]
  · have hpp : p = player → True := fun _ => trivial
    rcases data with _ | ⟨o, dr, rng⟩
    · have heq : handleShoot sid none now rx rz ps = (ps, []) := by
        unfold handleShoot
        rw [hg]
      rw [heq] at hq
      left
      rw [mem_unique hnd hmem hq]
    · rcases o with _ | origin
      · have heq : handleShoot sid (some ⟨none, dr, rng⟩) now rx rz ps = (ps, []) := by
          unfold handleShoot
          rw [hg]
        rw [heq] at hq
        left
        rw [mem_unique hnd hmem hq]
      · rcases dr with _ | dir0
        · have heq : handleShoot sid (some ⟨some origin, none, rng⟩) now rx rz ps =
              (ps, []) := by
            unfold handleShoot
            rw [hg]
          rw [heq] at hq
          left
          rw [mem_unique hnd hmem hq]
        · by_cases hcd : now - player.lastShot < SHOT_COOLDOWN_MS
          · have heq : handleShoot sid (some ⟨some origin, some dir0, rng⟩)
                now rx rz ps = (ps, []) := by
              unfold handleShoot
              rw [hg]
              dsimp only
              rw [if_pos hcd]
            rw [heq] at hq
            left
            rw [mem_unique hnd hmem hq]
          · rcases hf : findTarget sid origin (vNorm dir0) (effMaxDist rng)
                (setPlayer sid {player with lastShot := now} ps) with _ | ⟨tsid, t⟩
            · rw [handleShoot_miss rx rz hg hcd hf] at hq
              by_cases hss : s = sid
              · subst hss
                left
                rw [mem_setPlayer_self hq]
                have : p = player := by
                  have h2 := mem_getPlayer hnd hmem
                  rw [hg] at h2
                  cases h2
                  rfl
                rw [this]
              · left
                rw [mem_unique hnd hmem ((mem_setPlayer_other hss _ _).1 hq)]
            · have hne : tsid ≠ sid := tsid_ne_sid_of_findTarget hf
              rcases hg2 : getPlayer tsid
                  (setPlayer sid {player with lastShot := now} ps) with _ | target
              · rw [handleShoot_ghost rx rz hg hcd hf hg2] at hq
                by_cases hss : s = sid
                · subst hss
                  left
                  rw [mem_setPlayer_self hq]
                  have : p = player := by
                    have h2 := mem_getPlayer hnd hmem
                    rw [hg] at h2
                    cases h2
                    rfl
                  rw [this]
                · left
                  rw [mem_unique hnd hmem ((mem_setPlayer_other hss _ _).1 hq)]
              · have htmem : (tsid, target) ∈ ps :=
                  (mem_setPlayer_other hne _ _).1 (getPlayer_mem hg2)
                by_cases hdead : target.hp - DAMAGE ≤ 0
                · rw [handleShoot_kill rx rz hg hcd hf hg2 hdead] at hq
                  by_cases hst : s = tsid
                  · subst hst
                    have hpt : p = target := mem_unique hnd hmem htmem
                    right
                    refine ⟨hne, ?_, ?_⟩
                    · rw [mem_setPlayer_self hq, hpt, if_pos hdead]
                    · exact ⟨player, origin, dir0, rng, t, rfl, rfl, hf⟩
                  · by_cases hss : s = sid
                    · subst hss
                      left
                      have hq2 := mem_setPlayer_self
                        ((mem_setPlayer_other hst _ _).1 hq)
                      rw [hq2]
                      have : p = player := by
                        have h2 := mem_getPlayer hnd hmem
                        rw [hg] at h2
                        cases h2
                        rfl
                      rw [this]
                    · left
                      have hq2 := (mem_setPlayer_other hss _ _).1
                        ((mem_setPlayer_other hst _ _).1
                          ((mem_setPlayer_other hss _ _).1
                            ((mem_setPlayer_other hst _ _).1 hq)))
                      rw [mem_unique hnd hmem hq2]
                · rw [handleShoot_hit_alive rx rz hg hcd hf hg2 hdead] at hq
                  by_cases hst : s = tsid
                  · subst hst
                    have hpt : p = target := mem_unique hnd hmem htmem
                    right
                    refine ⟨hne, ?_, ?_⟩
                    · rw [mem_setPlayer_self hq, hpt, if_neg hdead]
                    · exact ⟨player, origin, dir0, rng, t, rfl, rfl, hf⟩
                  · by_cases hss : s = sid
                    · subst hss
                      left
                      have hq2 := mem_setPlayer_self
                        ((mem_setPlayer_other hst _ _).1 hq)
                      rw [hq2]
                      have : p = player := by
                        have h2 := mem_getPlayer hnd hmem
                        rw [hg] at h2
                        cases h2
                        rfl
                      rw [this]
                    · left
                      have hq2 := (mem_setPlayer_other hss _ _).1
                        ((mem_setPlayer_other hst _ _).1 hq)
                      rw [mem_unique hnd hmem hq2]

theorem handleMove_hp_eq (sid : Sid) (data : Option MoveData) (ps : Registry)
    (s : Sid) (p q : Player)
    (hnd : (ps.map Prod.fst).Nodup)
    (hmem : (s, p) ∈ ps)
    (hq : (s, q) ∈ (handleMove sid data ps).1) : q.hp = p.hp := by
  rcases hg : getPlayer sid ps with _ | player
  · have heq : handleMove sid data ps = (ps, []) := by
      unfold handleMove
      rw [hg]
    rw [heq] at hq
    rw [mem_unique hnd hmem hq]
  · rcases data with _ | ⟨po, ro⟩
    · have heq : handleMove sid none ps = (ps, []) := by
        unfold handleMove
        rw [hg]
      rw [heq] at hq
      rw [mem_unique hnd hmem hq]
    · rcases po with _ | pv
      · have heq : handleMove sid (some ⟨none, ro⟩) ps = (ps, []) := by
          unfold handleMove
          rw [hg]
        rw [heq] at hq
        rw [mem_unique hnd hmem hq]
      · rcases ro with _ | rv
        · have heq : handleMove sid (some ⟨some pv, none⟩) ps = (ps, []) := by
            unfold handleMove
            rw [hg]
          rw [heq] at hq
          rw [mem_unique hnd hmem hq]
        · have heq : handleMove sid (some ⟨some pv, some rv⟩) ps =
              (setPlayer sid
                 {player with pos := vec (pv.x * 1) (pv.y * 1) (pv.z * 1),
                              rot := vec (rv.x * 1) (rv.y * 1) (rv.z * 1)} ps,
               [⟨.othersOnly, .playerMoved sid
                  (vec (pv.x * 1) (pv.y * 1) (pv.z * 1))
                  (vec (rv.x * 1) (rv.y * 1) (rv.z * 1))⟩]) := by
            unfold handleMove
            rw [hg]
          rw [heq] at hq
          by_cases hss : s = sid
          · subst hss
            rw [mem_setPlayer_self hq]
            have hpl : p = player := by
              have h2 := mem_getPlayer hnd hmem
              rw [hg] at h2
              cases h2
              rfl
            rw [hpl]
          · rw [mem_unique hnd hmem ((mem_setPlayer_other hss _ _).1 hq)]

theorem healthInv_handleMove (sid : Sid) (data : Option MoveData) (ps : Registry)
    (hinv : HealthInv ps) : HealthInv (handleMove sid data ps).1 := by
  rcases hg : getPlayer sid ps with _ | player
  · unfold handleMove
    rw [hg]
    exact hinv
  · rcases data with _ | ⟨po, ro⟩
    · unfold handleMove
      rw [hg]
      exact hinv
    · rcases po with _ | pv
      · unfold handleMove
        rw [hg]
        exact hinv
      · rcases ro with _ | rv
        · unfold handleMove
          rw [hg]
          exact hinv
        · obtain ⟨h0, h1⟩ := hinv _ (getPlayer_mem hg)
          have heq : handleMove sid (some ⟨some pv, some rv⟩) ps =
              (setPlayer sid
                 {player with pos := vec (pv.x * 1) (pv.y * 1) (pv.z * 1),
                              rot := vec (rv.x * 1) (rv.y * 1) (rv.z * 1)} ps,
               [⟨.othersOnly, .playerMoved sid
                  (vec (pv.x * 1) (pv.y * 1) (pv.z * 1))
                  (vec (rv.x * 1) (rv.y * 1) (rv.z * 1))⟩]) := by
            unfold handleMove
            rw [hg]
          rw [heq]
          exact healthInv_setPlayer sid hinv h0 h1

theorem handleLogin_entries (sid : Sid) (data : Option LoginData)
    (db : String → Option DbRow) (bc : String → String → Bool) (rx ry rz : ℝ)
    (ps : Registry) (u2s : List (String × Sid)) (s : Sid) (q : Player)
    (hq : (s, q) ∈ (handleLogin sid data db bc rx ry rz ps u2s).1.1) :
    (s, q) ∈ ps ∨ q.hp = 100 := by
  rcases data with _ | ⟨uo, po⟩
  · exact Or.inl hq
  · rcases uo with _ | u
    · exact Or.inl hq
    · rcases po with _ | pw
      · exact Or.inl hq
      · by_cases hemp : u = "" ∨ pw = ""
        · have heq : (handleLogin sid (some ⟨some u, some pw⟩) db bc rx ry rz
              ps u2s).1.1 = ps := by
            unfold handleLogin
            dsimp only
            rw [if_pos hemp]
          rw [heq] at hq
          exact Or.inl hq
        · rcases hdb : db u with _ | row
          · have heq : (handleLogin sid (some ⟨some u, some pw⟩) db bc rx ry rz
                ps u2s).1.1 = ps := by
              unfold handleLogin
              dsimp only
              rw [if_neg hemp, hdb]
            rw [heq] at hq
            exact Or.inl hq
          · by_cases hbc : bc pw row.passwordHash
            · have heq : (handleLogin sid (some ⟨some u, some pw⟩) db bc rx ry rz
                  ps u2s).1.1 =
                  mapSet sid
                    { dbId := row.id, username := row.username,
                      pos := vec (rx * 8 - 4) 1 (rz * 8 - 4),
                      rot := vec 0 (ry * 360) 0,
                      kills := row.kills, deaths := row.deaths,
                      hp := 100, lastShot := 0 } ps := by
                unfold handleLogin
                dsimp only
                rw [if_neg hemp, hdb]
                dsimp only
                rw [if_pos hbc]
              rw [heq] at hq
              unfold mapSet at hq
              by_cases hf : (ps.find? (fun e => e.1 == sid)).isSome
              · rw [if_pos hf] at hq
                rcases mem_setPlayer hq with hm | hm
                · exact Or.inl hm
                · right
                  rw [show q = _ from congrArg Prod.snd hm]
              · rw [if_neg hf] at hq
                rcases List.mem_append.1 hq with hm | hm
                · exact Or.inl hm
                · right
                  rcases List.mem_singleton.1 hm
                  rfl
            · have heq : (handleLogin sid (some ⟨some u, some pw⟩) db bc rx ry rz
                  ps u2s).1.1 = ps := by
                unfold handleLogin
                dsimp only
                rw [if_neg hemp, hdb]
                dsimp only
                rw [if_neg hbc]
              rw [heq] at hq
              exact Or.inl hq

theorem healthInv_handleLogin (sid : Sid) (data : Option LoginData)
    (db : String → Option DbRow) (bc : String → String → Bool) (rx ry rz : ℝ)
    (ps : Registry) (u2s : List (String × Sid)) (hinv : HealthInv ps) :
    HealthInv (handleLogin sid data db bc rx ry rz ps u2s).1.1 := by
  intro e he
  obtain ⟨e1, e2⟩ := e
  rcases handleLogin_entries sid data db bc rx ry rz ps u2s e1 e2 he with hm | h100
  · exact hinv _ hm
  · rw [h100]
    norm_num

theorem handleDisconnect_subset (sid : Sid) (ps : Registry)
    (u2s : List (String × Sid)) (s : Sid) (q : Player)
    (hq : (s, q) ∈ (handleDisconnect sid ps u2s).1.1) : (s, q) ∈ ps := by
  rcases hg : getPlayer sid ps with _ | player
  · have heq : (handleDisconnect sid ps u2s).1.1 = ps := by
      unfold handleDisconnect
      rw [hg]
    rw [heq] at hq
    exact hq
  · have heq : (handleDisconnect sid ps u2s).1.1 =
        ps.filter (fun e => !(e.1 == sid)) := by
      unfold handleDisconnect
      rw [hg]
    rw [heq] at hq
    exact List.mem_of_mem_filter hq

theorem healthInv_handleDisconnect (sid : Sid) (ps : Registry)
    (u2s : List (String × Sid)) (hinv : HealthInv ps) :
    HealthInv (handleDisconnect sid ps u2s).1.1 := by
  intro e he
  obtain ⟨e1, e2⟩ := e
  exact hinv _ (handleDisconnect_subset sid ps u2s e1 e2 he)

/-- C3 (amended): every player's health stays an integer in `[0, 100]`
across every event (shoot, move, login, disconnect).  A shoot event
changes a player's health only when that player is the target the
hitscan validated (`findTarget` resolved it, and it is never the
shooter): the new health is `hp − 34` floored at `0` — so repeated hits
can never drive it negative — immediately reset to `100` by the respawn
path when the floored value is `0`.  Move and disconnect events never
change any health, and a login event only ever writes the fresh value
`100`.  Amendment forced by the counterexample: the reset to `100` is
not *exclusively* the respawn path — a second successful login on an
already registered connection overwrites that player's record and also
restores `hp = 100`. -/
theorem health_bounds_and_hit_only_changes :
    (∀ sid : Sid, ∀ data : Option ShootData, ∀ now : ℤ, ∀ rx rz : ℝ,
        ∀ ps : Registry, HealthInv ps →
        HealthInv (handleShoot sid data now rx rz ps).1) ∧
    (∀ sid : Sid, ∀ data : Option MoveData, ∀ ps : Registry, HealthInv ps →
        HealthInv (handleMove sid data ps).1) ∧
    (∀ sid : Sid, ∀ data : Option LoginData, ∀ db : String → Option DbRow,
        ∀ bc : String → String → Bool, ∀ rx ry rz : ℝ, ∀ ps : Registry,
        ∀ u2s : List (String × Sid), HealthInv ps →
        HealthInv (handleLogin sid data db bc rx ry rz ps u2s).1.1) ∧
    (∀ sid : Sid, ∀ ps : Registry, ∀ u2s : List (String × Sid), HealthInv ps →
        HealthInv (handleDisconnect sid ps u2s).1.1) ∧
    (∀ sid : Sid, ∀ data : Option ShootData, ∀ now : ℤ, ∀ rx rz : ℝ,
        ∀ ps : Registry, ∀ s : Sid, ∀ p q : Player,
        (ps.map Prod.fst).Nodup → (s, p) ∈ ps →
        (s, q) ∈ (handleShoot sid data now rx rz ps).1 →
        q.hp = p.hp ∨
          (s ≠ sid ∧
           q.hp = (if p.hp - DAMAGE ≤ 0 then (100 : ℤ) else p.hp - DAMAGE) ∧
           ∃ player : Player, ∃ origin dir0 : Vec3, ∃ rng : Option ℝ, ∃ t : ℝ,
             getPlayer sid ps = some player ∧
             data = some ⟨some origin, some dir0, rng⟩ ∧
             findTarget sid origin (vNorm dir0) (effMaxDist rng)
               (setPlayer sid {player with lastShot := now} ps) = some (s, t))) ∧
    (∀ sid : Sid, ∀ data : Option MoveData, ∀ ps : Registry, ∀ s : Sid,
        ∀ p q : Player, (ps.map Prod.fst).Nodup → (s, p) ∈ ps →
        (s, q) ∈ (handleMove sid data ps).1 → q.hp = p.hp) ∧
    (∀ sid : Sid, ∀ ps : Registry, ∀ u2s : List (String × Sid), ∀ s : Sid,
        ∀ q : Player, (s, q) ∈ (handleDisconnect sid ps u2s).1.1 → (s, q) ∈ ps) ∧
    (∀ sid : Sid, ∀ data : Option LoginData, ∀ db : String → Option DbRow,
        ∀ bc : String → String → Bool, ∀ rx ry rz : ℝ, ∀ ps : Registry,
        ∀ u2s : List (String × Sid), ∀ s : Sid, ∀ q : Player,
        (s, q) ∈ (handleLogin sid data db bc rx ry rz ps u2s).1.1 →
        (s, q) ∈ ps ∨ q.hp = 100) :=
  ⟨healthInv_handleShoot, healthInv_handleMove, healthInv_handleLogin,
   healthInv_handleDisconnect, handleShoot_hp_changes, handleMove_hp_eq,
   handleDisconnect_subset, handleLogin_entries⟩

theorem health_bounds_and_hit_only_changes_witness :
    HealthInv sampleRegistry ∧
    HealthInv (handleShoot 1 (some ⟨some (vec 0 0 0), some (vec 1 0 0), none⟩)
        1000 0 (1/2) sampleRegistry).1 := by
  have hinv : HealthInv sampleRegistry := by
    intro e he
    simp only [sampleRegistry, List.mem_cons, List.not_mem_nil, or_false] at he
    rcases he with rfl | rfl
    · norm_num [alicePlayer]
    · norm_num [bobPlayer]
  exact ⟨hinv, health_bounds_and_hit_only_changes.1 1
    (some ⟨some (vec 0 0 0), some (vec 1 0 0), none⟩) 1000 0 (1/2)
    sampleRegistry hinv⟩

end GameServer
